import Mathlib

/-!
Shallow embedding of the chi-http-hclog middleware (src/config.go, src/httplog.go)
and proofs about its field-derivation, redaction, classification and
configuration logic.

Modelling conventions:
- Go `interface{}` values appearing in key/value log-field lists are modelled
  by the inductive `GoVal`; the flattened Go `[]interface{}` alternating
  key/value slices are modelled as `List (String × GoVal)` (keys in this code
  are always string literals).
- Go `float64` arithmetic is modelled over `ℚ` (the single floating-point
  expression in the code, `float64(ns) / 1000000.0`, is a correctly rounded
  division; the rational model captures its exact mathematical value).
- `http.Header` (a `map[string][]string`) is modelled as an association list
  `List (String × List String)`; map iteration order in Go is unspecified, so
  the list order stands for one arbitrary iteration order.
- `hclog.Level` is the enumeration `Level` below, `hclog.Logger` is modelled
  by the fields accumulated through `With`, plus a null-logger constructor.
- `strings.ToLower` is modelled by `goToLower` below (ASCII lower-casing of
  each character; all header names and configuration entries in the claims
  are ASCII).
-/

/-- Model of Go strings.ToLower: lower-case every character (ASCII case
folding via Char.toLower). -/
def goToLower (s : String) : String := ⟨s.data.map Char.toLower⟩

/-- Go interface value stored in a key/value log-field list. -/
inductive GoVal where
  | str (s : String)
  | int (n : Int)
  | rat (q : ℚ)
  deriving DecidableEq, Repr

/-- hclog.Level enumeration (go-hclog): NoLevel, Trace, Debug, Info, Warn, Error, Off. -/
inductive Level where
  | NoLevel
  | Trace
  | Debug
  | Info
  | Warn
  | Error
  | Off
  deriving DecidableEq, Repr

/-- statusLevel (src/httplog.go lines 189-202): maps an HTTP status code to an
hclog level via the source's switch, clause by clause. -/
def statusLevel (status : Int) : Level :=
  if status ≤ 0 then .Warn
  else if status < 400 then .Info
  else if 400 ≤ status ∧ status < 500 then .Warn
  else if status ≥ 500 then .Error
  else .Info

/-- statusLabel (src/httplog.go lines 204-217): maps an HTTP status code to a
human label via the source's switch, clause by clause. -/
def statusLabel (status : Int) : String :=
  if 100 ≤ status ∧ status < 300 then "OK"
  else if 300 ≤ status ∧ status < 400 then "Redirect"
  else if 400 ≤ status ∧ status < 500 then "Client Error"
  else if status ≥ 500 then "Server Error"
  else "Unknown"

/-- Severity table transcribed from the claim's words (spec section 4.4):
s ≤ 0 → Warning; 1-99 → Info; 100-299 → Info; 300-399 → Info;
400-499 → Warning; ≥ 500 → Error. Used only to compare with `statusLevel`. -/
def specSeverityFor (s : Int) : Level :=
  if s ≤ 0 then .Warn
  else if s ≤ 99 then .Info
  else if s ≤ 299 then .Info
  else if s ≤ 399 then .Info
  else if s ≤ 499 then .Warn
  else .Error

/-- Label table transcribed from the claim's words (spec section 4.4):
s ≤ 0 → "Unknown"; 1-99 → "Unknown"; 100-299 → "OK"; 300-399 → "Redirect";
400-499 → "Client Error"; ≥ 500 → "Server Error". Used only to compare with
`statusLabel`. -/
def specLabelFor (s : Int) : String :=
  if s ≤ 0 then "Unknown"
  else if s ≤ 99 then "Unknown"
  else if s ≤ 299 then "OK"
  else if s ≤ 399 then "Redirect"
  else if s ≤ 499 then "Client Error"
  else "Server Error"

/-- C3: for every integer status code s, severityFor(s) and labelFor(s) are
pure functions of s matching the tables exactly: s ≤ 0 → Warning/"Unknown";
1-99 → Info/"Unknown"; 100-299 → Info/"OK"; 300-399 → Info/"Redirect";
400-499 → Warning/"Client Error"; s ≥ 500 → Error/"Server Error". -/
theorem statusLevel_statusLabel_match_spec_tables (s : Int) :
    statusLevel s = specSeverityFor s ∧ statusLabel s = specLabelFor s := by
  constructor
  · unfold statusLevel specSeverityFor
    split_ifs <;> first | rfl | omega
  · unfold statusLabel specLabelFor
    split_ifs <;> first | rfl | omega

/-- Built-in sensitive-name mask (src/httplog.go lines 174-176): after the
value pair, if the lower-cased name is exactly authorization, cookie or
set-cookie, a second (name, "***") pair is appended. -/
def builtinMask (k : String) : List (String × String) :=
  if k = "authorization" ∨ k = "cookie" ∨ k = "set-cookie" then [(k, "***")] else []

/-- SkipHeaders mask loop (src/httplog.go lines 178-183): scan the configured
skipHeaders, append one (name, "***") pair at the first match, then break. -/
def skipMask (k : String) : List String → List (String × String)
  | [] => []
  | s :: rest => if k = s then [(k, "***")] else skipMask k rest

/-- headerLogField (src/httplog.go lines 161-187): iterate the header
collection; per entry, lower-case the name, skip an empty value list, emit
(name, value) for a single value or (name, "[v1], [v2], ...") for several,
then append the built-in mask and the skipHeaders mask. -/
def headerLogField (skips : List String) : List (String × List String) → List (String × String)
  | [] => []
  | (name, vs) :: rest =>
    let k := goToLower name
    (match vs with
     | [] => []
     | [v] => (k, v) :: (builtinMask k ++ skipMask k skips)
     | vs => (k, "[" ++ String.intercalate "], [" vs ++ "]") :: (builtinMask k ++ skipMask k skips))
    ++ headerLogField skips rest

/-- C1 (code evaluated at the failing input): on the header collection
{Authorization: "Bearer xyz"} with empty skipHeaders, headerLogField returns
the original value pair followed by the mask pair, so the original value
"Bearer xyz" appears in the returned sequence — the mask does not replace it. -/
theorem headerLogField_emits_original_before_mask :
    headerLogField [] [("Authorization", ["Bearer xyz"])] =
      [("authorization", "Bearer xyz"), ("authorization", "***")] ∧
    ("authorization", "Bearer xyz") ∈ headerLogField [] [("Authorization", ["Bearer xyz"])] := by
  constructor
  · rfl
  · decide

/-- C4 counterexample: redacting the collection whose sensitive entry already
holds the masked value does not yield the same key/value pairs as redacting
the original collection — the value pair emitted before the mask differs. -/
theorem headerLogField_not_idempotent_on_pairs :
    headerLogField [] [("Authorization", ["secret"])] ≠
      headerLogField [] [("Authorization", ["***"])] := by
  decide

/-- skipMask emits the mask exactly when the lower-cased name occurs in the
configured skipHeaders list, and at most once (the loop breaks at the first
match). -/
theorem skipMask_eq_ite (k : String) (skips : List String) :
    skipMask k skips = if k ∈ skips then [(k, "***")] else [] := by
  induction skips with
  | nil => simp [skipMask]
  | cons s rest ih =>
    by_cases h : k = s
    · simp [skipMask, h]
    · simp [skipMask, h, ih, Ne.symm h]

/-- C4 (amended): redaction of an already-masked collection yields the same
masked value — for every header collection whose entries each hold the single
masked value "***", every value in the redactor's output is "***". -/
theorem headerLogField_masked_input_all_masked (skips : List String)
    (hdrs : List (String × List String)) (h : ∀ e ∈ hdrs, e.2 = ["***"]) :
    (headerLogField skips hdrs).all (fun p => p.2 == "***") = true := by
  induction hdrs with
  | nil => rfl
  | cons e rest ih =>
    obtain ⟨name, vs⟩ := e
    have hv : vs = ["***"] := h (name, vs) (List.mem_cons_self _ _)
    subst hv
    have hrest : ∀ e ∈ rest, e.2 = ["***"] := fun e he => h e (List.mem_cons_of_mem _ he)
    simp only [headerLogField, List.all_append, ih hrest, Bool.and_true]
    simp only [List.all_cons, builtinMask, skipMask_eq_ite]
    split_ifs <;> simp

/-- C4 witness: the amended theorem applied to the concrete already-masked
collection {Authorization: "***"} with empty skipHeaders. -/
theorem headerLogField_masked_input_all_masked_witness :
    (headerLogField [] [("Authorization", ["***"])]).all (fun p => p.2 == "***") = true :=
  headerLogField_masked_input_all_masked [] [("Authorization", ["***"])] (by decide)

/-- C9: a single-valued header whose lower-cased name is both a built-in
sensitive name and a member of the configured skipHeaders produces the mask
pair twice after the original value pair; and a name matching multiple
skipHeaders entries (here, the duplicated list skips ++ skips) still receives
exactly one skipHeaders mask pair, yielding the same three pairs. -/
theorem headerLogField_double_mask (name v : String) (skips : List String)
    (hb : goToLower name = "authorization" ∨ goToLower name = "cookie" ∨ goToLower name = "set-cookie")
    (hs : goToLower name ∈ skips) :
    headerLogField skips [(name, [v])] =
      [(goToLower name, v), (goToLower name, "***"), (goToLower name, "***")] ∧
    headerLogField (skips ++ skips) [(name, [v])] =
      [(goToLower name, v), (goToLower name, "***"), (goToLower name, "***")] := by
  constructor <;>
  · simp only [headerLogField, builtinMask, skipMask_eq_ite, List.append_nil]
    split_ifs <;> simp_all

/-- C9 witness: the theorem applied to the header Cookie: "c=1" with
skipHeaders ["x-api-key", "cookie"]. -/
theorem headerLogField_double_mask_witness :
    headerLogField ["x-api-key", "cookie"] [("Cookie", ["c=1"])] =
      [("cookie", "c=1"), ("cookie", "***"), ("cookie", "***")] ∧
    headerLogField (["x-api-key", "cookie"] ++ ["x-api-key", "cookie"]) [("Cookie", ["c=1"])] =
      [("cookie", "c=1"), ("cookie", "***"), ("cookie", "***")] :=
  headerLogField_double_mask "Cookie" "c=1" ["x-api-key", "cookie"]
    (Or.inr (Or.inl (by decide))) (by decide)

/-- Options (src/config.go lines 20-46): the process-wide configuration
value. Go map Tags is modelled as an association list. -/
structure Options where
  name : String
  level : String
  jsonFormat : Bool
  timeFormat : String
  concise : Bool
  tags : List (String × String)
  skipHeaders : List String
  deriving DecidableEq, Repr

/-- time.RFC3339Nano layout constant from the Go standard library. -/
def rfc3339Nano : String := "2006-01-02T15:04:05.999999999Z07:00"

/-- DefaultOptions (src/config.go lines 10-18): the initial configuration
value before any Configure call. -/
def DefaultOptions : Options :=
  { name := "", level := "info", jsonFormat := false, timeFormat := rfc3339Nano,
    concise := false, tags := [], skipHeaders := [] }

/-- Configure (src/config.go lines 50-72): fill in defaults for an empty
level ("info") and an empty timeFormat (RFC3339Nano), lower-case every
skipHeaders entry in place; the result is the value assigned wholesale to the
process-wide DefaultOptions. -/
def Configure (opts : Options) : Options :=
  let opts := if opts.level = "" then { opts with level := "info" } else opts
  let opts := if opts.timeFormat = "" then { opts with timeFormat := rfc3339Nano } else opts
  { opts with skipHeaders := opts.skipHeaders.map goToLower }

/-- The process-wide configuration update performed by Configure: the
assignment DefaultOptions = opts overwrites the prior value wholesale, so the
prior configuration does not influence the result. -/
def configureUpdate (_prior : Options) (opts : Options) : Options := Configure opts

/-- C6: Configure replaces an empty level by "info" and an empty timeFormat
by the RFC3339-with-nanoseconds default, lower-cases every skipHeaders entry,
leaves the remaining fields as given, and the resulting configuration fully
replaces the prior process-wide configuration — the update's outcome is
independent of the prior value. -/
theorem Configure_fills_defaults_and_replaces (prior prior2 opts : Options) :
    (Configure opts).level = (if opts.level = "" then "info" else opts.level) ∧
    (Configure opts).timeFormat =
      (if opts.timeFormat = "" then rfc3339Nano else opts.timeFormat) ∧
    (Configure opts).skipHeaders = opts.skipHeaders.map goToLower ∧
    (Configure opts).name = opts.name ∧
    (Configure opts).jsonFormat = opts.jsonFormat ∧
    (Configure opts).concise = opts.concise ∧
    (Configure opts).tags = opts.tags ∧
    configureUpdate prior opts = configureUpdate prior2 opts := by
  unfold configureUpdate Configure
  split_ifs <;> simp_all

/-- http.Request, restricted to the fields this package reads. `tls` stands
for r.TLS != nil, `reqID` for middleware.GetReqID(r.Context()) (empty string
when absent). -/
structure Request where
  tls : Bool
  host : String
  requestURI : String
  method : String
  urlPath : String
  remoteAddr : String
  proto : String
  reqID : String
  header : List (String × List String)
  deriving DecidableEq, Repr

/-- requestLogFields (src/httplog.go lines 130-159): the fixed fields
(requestURL, requestMethod, requestPath, remoteIP, proto), requestID when
non-empty, then — only when concise is false — the scheme field and, when at
least one header is present, the redacted header fields. -/
def requestLogFields (skips : List String) (r : Request) (concise : Bool) :
    List (String × GoVal) :=
  let scheme := if r.tls then "https" else "http"
  let requestURL := scheme ++ "://" ++ r.host ++ r.requestURI
  let requestFields : List (String × GoVal) :=
    [("requestURL", .str requestURL), ("requestMethod", .str r.method),
     ("requestPath", .str r.urlPath), ("remoteIP", .str r.remoteAddr),
     ("proto", .str r.proto)]
  let requestFields :=
    if r.reqID ≠ "" then requestFields ++ [("requestID", .str r.reqID)] else requestFields
  if concise then requestFields
  else
    let requestFields := requestFields ++ [("scheme", .str scheme)]
    if r.header.length > 0 then
      requestFields ++ (headerLogField skips r.header).map (fun p => (p.1, GoVal.str p.2))
    else requestFields

/-- hclog.Logger, modelled by the key/value fields it has accumulated via
With, plus a constructor for hclog.NewNullLogger(). -/
inductive Logger where
  | null
  | logger (fields : List (String × GoVal))
  deriving DecidableEq, Repr

/-- Logger.With(args...): a new handle with the extra key/value pairs
appended; the null logger stays null (it discards everything). -/
def Logger.withKV : Logger → List (String × GoVal) → Logger
  | .null, _ => .null
  | .logger fs, kvs => .logger (fs ++ kvs)

/-- RequestLoggerEntry (src/httplog.go lines 79-82). -/
structure RequestLoggerEntry where
  logger : Logger
  msg : String
  deriving DecidableEq, Repr

/-- requestLogger.NewLogEntry (src/httplog.go lines 66-77):
entry.Logger = l.Logger.With(requestLogFields(r, true)...) — the concise
argument is the literal true; msg starts empty. The configured options are a
parameter because requestLogFields reads DefaultOptions.SkipHeaders through
headerLogField. -/
def NewLogEntry (opts : Options) (base : Logger) (r : Request) : RequestLoggerEntry :=
  { logger := base.withKV (requestLogFields opts.skipHeaders r true), msg := "" }

/-- Concrete configuration with concise = false, for the C2 counterexample. -/
def exOptsVerbose : Options :=
  { name := "", level := "info", jsonFormat := false, timeFormat := rfc3339Nano,
    concise := false, tags := [], skipHeaders := [] }

/-- Concrete request carrying one header, for the C2 counterexample. -/
def exReqWithHeader : Request :=
  { tls := false, host := "example.com", requestURI := "/", method := "GET",
    urlPath := "/", remoteAddr := "192.0.2.1:1234", proto := "HTTP/1.1",
    reqID := "", header := [("Accept", ["text/html"])] }

/-- C2 counterexample: under a configuration with concise = false, for a
request with one header, the initial logger handle built by entry creation
holds exactly the five fixed fields — no scheme field and no header fields,
contradicting the claim that requestFields(request, !concise) is used. -/
theorem NewLogEntry_counterexample :
    exOptsVerbose.concise = false ∧
    exReqWithHeader.header.length > 0 ∧
    (NewLogEntry exOptsVerbose (Logger.logger []) exReqWithHeader).logger =
      Logger.logger
        [("requestURL", .str "http://example.com/"), ("requestMethod", .str "GET"),
         ("requestPath", .str "/"), ("remoteIP", .str "192.0.2.1:1234"),
         ("proto", .str "HTTP/1.1")] := by
  refine ⟨rfl, by decide, ?_⟩
  rfl

/-- C2 (amended): entry creation passes the literal true for concise, so the
initial logger handle is built from requestFields(request, true) whatever the
configured options are: the result is the same for any two configurations,
and its field keys are exactly requestURL, requestMethod, requestPath,
remoteIP, proto, plus requestID when non-empty — never scheme, never header
fields. -/
theorem NewLogEntry_concise_hardcoded (opts opts2 : Options) (base : Logger) (r : Request) :
    NewLogEntry opts base r = NewLogEntry opts2 base r ∧
    (requestLogFields opts.skipHeaders r true).map Prod.fst =
      ["requestURL", "requestMethod", "requestPath", "remoteIP", "proto"] ++
        (if r.reqID = "" then [] else ["requestID"]) := by
  unfold NewLogEntry requestLogFields
  by_cases h : r.reqID = "" <;> simp [h]

/-- The extra argument passed to Write (a Go interface value): the teed
response body as a byte slice, nil, or a value of some other type. -/
inductive GoExtra where
  | nilE
  | bytes (s : String)
  | other
  deriving DecidableEq, Repr

/-- The assertion body, _ := extra.([]byte) followed by string(body)
(src/httplog.go lines 100-101): when extra is nil or not a byte slice the
assertion yields a nil slice and string(nil) is the empty string. -/
def extraBody : GoExtra → String
  | .bytes s => s
  | _ => ""

/-- The elapsed field value (src/httplog.go line 93):
float64(elapsed.Nanoseconds()) / 1000000.0, modelled exactly over ℚ. -/
def elapsedMs (elapsedNs : Int) : ℚ := (elapsedNs : ℚ) / 1000000

/-- The one backend call made by RequestLoggerEntry.Write:
l.Logger.Log(statusLevel(status), msg, responseLog...). -/
structure LogCall where
  level : Level
  msg : String
  fields : List (String × GoVal)
  deriving DecidableEq, Repr

/-- RequestLoggerEntry.Write (src/httplog.go lines 84-113) as a pure function
from the entry's msg, the configuration reads (DefaultOptions.Concise and
DefaultOptions.SkipHeaders) and the call arguments to the single emitted log
call. -/
def entryWrite (concise : Bool) (skips : List String) (lmsg : String)
    (status bytes : Int) (header : List (String × List String))
    (elapsedNs : Int) (extra : GoExtra) : LogCall :=
  let msg := toString status ++ " " ++ statusLabel status
  let msg := if lmsg ≠ "" then msg ++ " - " ++ lmsg else msg
  let responseLog : List (String × GoVal) :=
    [("status", .int status), ("bytes", .int bytes), ("elapsed", .rat (elapsedMs elapsedNs))]
  let responseLog :=
    if ¬concise then
      let responseLog :=
        if status ≥ 400 then responseLog ++ [("responseBody", .str (extraBody extra))]
        else responseLog
      if header.length > 0 then
        responseLog ++ (headerLogField skips header).map (fun p => (p.1, GoVal.str p.2))
      else responseLog
    else responseLog
  { level := statusLevel status, msg := msg, fields := responseLog }

/-- C5: flushing with final status 503 under concise = true emits one log
call, at Error level, with message "503 Server Error", whose response field
sequence is exactly status, bytes, elapsed — in particular no responseBody
field and no header fields even though 503 ≥ 400. -/
theorem entryWrite_503_concise (bytes : Int) (skips : List String)
    (header : List (String × List String)) (elapsedNs : Int) (extra : GoExtra) :
    entryWrite true skips "" 503 bytes header elapsedNs extra =
      { level := .Error, msg := "503 Server Error",
        fields := [("status", .int 503), ("bytes", .int bytes),
                   ("elapsed", .rat (elapsedMs elapsedNs))] } ∧
    "responseBody" ∉
      (entryWrite true skips "" 503 bytes header elapsedNs extra).fields.map Prod.fst := by
  have h1 : entryWrite true skips "" 503 bytes header elapsedNs extra =
      { level := .Error, msg := "503 Server Error",
        fields := [("status", .int 503), ("bytes", .int bytes),
                   ("elapsed", .rat (elapsedMs elapsedNs))] } := rfl
  refine ⟨h1, ?_⟩
  rw [h1]
  simp

/-- C7: the elapsed field of every flush is the exact quotient of the elapsed
nanosecond count by 1,000,000: it is always the third response field,
multiplying it back by 1,000,000 recovers the nanosecond count exactly (no
information is lost), and 1,500,000 ns yields 1.5, not a truncated 1. -/
theorem entryWrite_elapsed_exact_fractional_ms (concise : Bool) (skips : List String)
    (lmsg : String) (status bytes : Int) (header : List (String × List String))
    (elapsedNs : Int) (extra : GoExtra) :
    (entryWrite concise skips lmsg status bytes header elapsedNs extra).fields.take 3 =
      [("status", .int status), ("bytes", .int bytes),
       ("elapsed", .rat (elapsedMs elapsedNs))] ∧
    elapsedMs elapsedNs * 1000000 = elapsedNs ∧
    elapsedMs 1500000 = 3 / 2 ∧
    elapsedMs 1500000 ≠ 1 := by
  refine ⟨?_, ?_, ?_, ?_⟩
  · unfold entryWrite
    split_ifs <;> rfl
  · unfold elapsedMs
    field_simp
  · unfold elapsedMs
    norm_num
  · unfold elapsedMs
    norm_num

/-- C10: for every flush with status ≥ 400 under non-concise configuration,
the responseBody field is emitted even when the captured body argument is nil
or not a byte slice: the flush is total and the responseBody value is the
empty string, placed right after status, bytes and elapsed. -/
theorem entryWrite_responseBody_empty_on_non_bytes (skips : List String)
    (lmsg : String) (status bytes : Int) (header : List (String × List String))
    (elapsedNs : Int) (extra : GoExtra) (hs : 400 ≤ status)
    (hx : extra = .nilE ∨ extra = .other) :
    (entryWrite false skips lmsg status bytes header elapsedNs extra).fields.take 4 =
      [("status", .int status), ("bytes", .int bytes),
       ("elapsed", .rat (elapsedMs elapsedNs)), ("responseBody", .str "")] := by
  have hb : extraBody extra = "" := by rcases hx with h | h <;> simp [h, extraBody]
  unfold entryWrite
  simp only [hb]
  split_ifs <;> first | rfl | omega | simp_all

/-- C10 witness: the theorem applied at status 503 with a nil body argument. -/
theorem entryWrite_responseBody_empty_on_non_bytes_witness :
    (entryWrite false [] "" 503 0 [] 0 GoExtra.nilE).fields.take 4 =
      [("status", .int 503), ("bytes", .int 0),
       ("elapsed", .rat (elapsedMs 0)), ("responseBody", .str "")] :=
  entryWrite_responseBody_empty_on_non_bytes [] "" 503 0 [] 0 GoExtra.nilE
    (by norm_num) (Or.inl rfl)

/-- The value the request context holds under middleware.LogEntryCtxKey:
absent, a value whose type assertion to *RequestLoggerEntry fails, or a
request-logger entry. (A typed nil pointer is not modelled: this package only
ever stores non-nil entries via middleware.WithLogEntry.) -/
inductive CtxEntry where
  | missing
  | wrongType
  | entry (e : RequestLoggerEntry)
  deriving DecidableEq, Repr

/-- LogEntry (src/httplog.go lines 226-233): the stored entry's logger when
the context holds one, else hclog.NewNullLogger(). -/
def LogEntry : CtxEntry → Logger
  | .entry e => e.logger
  | _ => .null

/-- LogEntrySetField (src/httplog.go lines 235-239): when the type assertion
succeeds, replace the stored entry's logger by one with the extra field;
otherwise do nothing. -/
def LogEntrySetField (ctx : CtxEntry) (key value : String) : CtxEntry :=
  match ctx with
  | .entry e => .entry { e with logger := e.logger.withKV [(key, .str value)] }
  | c => c

/-- LogEntrySetFields (src/httplog.go lines 241-245): likewise for a list of
key/value pairs. -/
def LogEntrySetFields (ctx : CtxEntry) (fields : List (String × GoVal)) : CtxEntry :=
  match ctx with
  | .entry e => .entry { e with logger := e.logger.withKV fields }
  | c => c

/-- C8: when the context holds no request-logger entry (the lookup misses or
the stored value is not a request-logger entry), LogEntrySetField and
LogEntrySetFields leave the state unchanged, and LogEntry returns the no-op
null logger handle; all three functions are total, so none raises. -/
theorem ctx_accessors_noop_without_entry (ctx : CtxEntry) (key value : String)
    (fields : List (String × GoVal)) (h : ctx = .missing ∨ ctx = .wrongType) :
    LogEntrySetField ctx key value = ctx ∧
    LogEntrySetFields ctx fields = ctx ∧
    LogEntry ctx = .null := by
  rcases h with h | h <;> subst h <;> exact ⟨rfl, rfl, rfl⟩

/-- C8 witness: the theorem applied to a context with no stored entry. -/
theorem ctx_accessors_noop_without_entry_witness :
    LogEntrySetField CtxEntry.missing "k" "v" = CtxEntry.missing ∧
    LogEntrySetFields CtxEntry.missing [] = CtxEntry.missing ∧
    LogEntry CtxEntry.missing = Logger.null :=
  ctx_accessors_noop_without_entry CtxEntry.missing "k" "v" [] (Or.inl rfl)
